import Mathlib

/-!
Verification of the cannabis-legislation-tracker scraper (src/scraper.py).

The Python source is shallowly embedded below: pure functions become Lean
functions, the network is an explicit data argument (each search hit carries
the detail response the provider returned for it), and Python `None` /
missing-key defaults become `Option` with `getD`.  Python strings are Lean
`String`s; character-level operations work on `String.data`.
-/

/-! ## Python string primitives -/

/-- Models ASCII `str.lower` (every term and status below is ASCII). -/
def lowerString (s : String) : String := ⟨s.data.map Char.toLower⟩

/-- Does `hay` start with `needle`?  (Helper for substring containment.) -/
def chListStarts : List Char → List Char → Bool
  | [], _ => true
  | _ :: _, [] => false
  | n :: ns, h :: hs => (n == h) && chListStarts ns hs

/-- Character-list substring containment. -/
def chContains : List Char → List Char → Bool
  | [], n => n.isEmpty
  | h :: hs, n => chListStarts n (h :: hs) || chContains hs n

/-- Models the Python membership test `needle in hay` on strings. -/
def strContains (hay needle : String) : Bool := chContains hay.data needle.data

/-- Models Python slicing `s[:n]` (by code point). -/
def pyTake (s : String) (n : Nat) : String := ⟨s.data.take n⟩

/-- Models `str.replace(old, new)` for a single-character `old`, which
rewrites each occurrence of that character independently. -/
def pyReplaceChar (s : String) (old : Char) (new : String) : String :=
  ⟨s.data.flatMap (fun c => if c == old then new.data else [c])⟩

/-- Python truthiness of an optional string: `None` and the empty string are falsy. -/
def optTruthy : Option String → Bool
  | none => false
  | some s => s ≠ ""

/-- Models `a or b` on optional strings (returns `b` unchanged when `a` is falsy). -/
def pyOrOpt (a b : Option String) : Option String :=
  if optTruthy a then a else b

/-- Models `a or dflt` where the result is used as a plain string. -/
def pyOrStr (a : Option String) (dflt : String) : String :=
  match a with
  | none => dflt
  | some s => if s = "" then dflt else s

/-- Models `sep.join(xs)`. -/
def pyJoin (sep : String) : List String → String
  | [] => ""
  | [x] => x
  | x :: y :: xs => x ++ sep ++ pyJoin sep (y :: xs)

/-! ## Relevance classifier (scraper.py lines 49-82) -/

/-- The three domain-anchor terms tested at line 76. -/
def ANCHOR_TERMS : List String := ["cannabis", "marijuana", "marihuana"]

/-- `POLICY_TERMS` (lines 49-71), transcribed verbatim. -/
def POLICY_TERMS : List String := [
  "bank", "banking", "tax", "deduction", "280e", "safe banking",
  "commerce", "interstate", "import", "export", "trade",
  "administration", "regulation", "regulatory", "rule", "rulemaking",
  "license", "licensing", "licensee", "permit",
  "scheduling", "schedule i", "schedule ii", "schedule iii",
  "decriminalization", "legalization", "legalize",
  "medical", "recreational", "adult-use", "adult use",
  "dispensary", "dispensaries", "cultivation", "cultivator",
  "manufacturer", "manufacturing", "processor", "retailer",
  "delivery", "transporter",
  "enforcement", "compliance", "violation", "penalty", "penalties",
  "black market", "gray market", "grey market", "illicit",
  "testing", "test", "potency", "thc", "cbd", "contaminant",
  "pesticide", "lab", "laboratory",
  "equity", "social equity", "expungement", "record", "conviction",
  "tribal", "reservation",
  "fund", "funding", "grant", "appropriation", "cash fund",
  "revenue", "fee", "fees",
  "possession", "consume", "consumption", "use", "impairment",
  "dui", "dwi", "workplace",
  "hemp", "research", "study", "pilot", "program"]

/-- `is_relevant_bill` (lines 73-82): lowercase title, a space, description,
require an anchor term, then require a policy term. -/
def is_relevant_bill (title description : String) : Bool :=
  let text := lowerString (title ++ " " ++ description)
  let cannabis_mentioned := ANCHOR_TERMS.any (fun term => strContains text term)
  if !cannabis_mentioned then false
  else POLICY_TERMS.any (fun term => strContains text term)

/-- Claim C1 reads the classifier as testing the case-folded concatenation of
title and description with no separator; this definition follows the claim
words, for comparison with `is_relevant_bill` (which inserts a space). -/
def specRelevantNoSep (title description : String) : Bool :=
  let text := lowerString (title ++ description)
  ANCHOR_TERMS.any (fun term => strContains text term) &&
    POLICY_TERMS.any (fun term => strContains text term)

/-! ## Status table (lines 18-28) and normalization (lines 141-166) -/

/-- `STATUS_MAP` (lines 18-28). -/
def STATUS_MAP : List (Int × String) :=
  [(1, "Introduced"), (2, "In Committee"), (3, "Passed Chamber"),
   (4, "Passed Both Chambers"), (5, "Sent to Executive"), (6, "Enacted/Signed"),
   (7, "Vetoed"), (8, "Failed/Dead"), (9, "Override Attempt")]

/-- The `STATUS_MAP` dictionary get with default `"Unknown"` (line 142). -/
def statusMapGet (c : Int) : String := ((STATUS_MAP.lookup c).getD "Unknown")

/-- One entry of the provider detail `sponsors` array (`sponsor.get(...)`,
lines 161-166); each field may be missing or null. -/
structure SponsorRaw where
  name : Option String
  party : Option String
  role : Option String
deriving DecidableEq, Repr

/-- The provider `bill` object as read by `bill_info.get(...)` (lines
132-166); each field may be missing or null. -/
structure BillInfo where
  bill_id : Option Int
  bill_number : Option String
  title : Option String
  description : Option String
  status : Option Int
  status_date : Option String
  url : Option String
  last_action : Option String
  last_action_date : Option String
  sponsors : Option (List SponsorRaw)
deriving DecidableEq, Repr

/-- A normalized sponsor entry (lines 162-166): `name` may be null, `party`
and `role` default to the empty string. -/
structure Sponsor where
  name : Option String
  party : String
  role : String
deriving DecidableEq, Repr

/-- The canonical bill record built at lines 144-159. -/
structure Bill where
  id : Option Int
  state_code : String
  state_name : String
  bill_number : Option String
  title : String
  description : String
  status : String
  status_code : Int
  status_date : Option String
  url : Option String
  last_action : Option String
  last_action_date : Option String
  sponsors : List Sponsor
  analysis_url : Option String
deriving DecidableEq, Repr

/-- Normalization of one provider record (lines 134-166): defaulted title and
description, status translated through `STATUS_MAP`, description truncated to
500 characters, first 5 sponsors kept in provider order, `analysis_url`
initialized to null. -/
def normalizeBill (state_code state_name : String) (info : BillInfo) : Bill :=
  let title := info.title.getD ""
  let description := info.description.getD ""
  let status_code := info.status.getD 0
  { id := info.bill_id
    state_code := state_code
    state_name := state_name
    bill_number := info.bill_number
    title := title
    description := pyTake description 500
    status := statusMapGet status_code
    status_code := status_code
    status_date := info.status_date
    url := info.url
    last_action := info.last_action
    last_action_date := info.last_action_date
    sponsors := ((info.sponsors.getD []).take 5).map
      (fun s => { name := s.name, party := s.party.getD "", role := s.role.getD "" })
    analysis_url := none }

/-! ## Per-jurisdiction fetch (lines 84-183)

The network is explicit data: the search call yields a `SearchResponse`; each
non-summary entry of `searchresult` carries the `DetailResponse` the provider
returned for the corresponding `getBill` call. -/

/-- Outcome of one `getBill` request (lines 126-131): a raised exception, or
an HTTP status plus the decoded body `status` field and `bill` object
(a missing `bill` key is the all-missing `BillInfo`). -/
inductive DetailResponse where
  | exn
  | got (httpStatus : Nat) (status : String) (bill : BillInfo)
deriving DecidableEq, Repr

/-- One entry of the `searchresult` mapping (lines 109-123): the `summary`
pseudo-entry, or a real hit with its `bill_id` and detail response. -/
inductive SRItem where
  | summary (count : Nat)
  | hit (bill_id : Option Int) (resp : DetailResponse)
deriving DecidableEq, Repr

/-- The decoded search body: its `status` field and `searchresult` entries
in iteration order (a missing `searchresult` key is the empty list). -/
structure SearchBody where
  status : String
  searchresult : List SRItem
deriving DecidableEq, Repr

/-- Outcome of the `getSearch` request (lines 97-107): a raised exception
(transport or JSON decoding), or an HTTP status plus decoded body. -/
inductive SearchResponse where
  | exn
  | got (httpStatus : Nat) (body : SearchBody)
deriving DecidableEq, Repr

/-- The summary entry count read with default 0 at line 111. -/
def summaryCount : List SRItem → Nat
  | [] => 0
  | .summary c :: _ => c
  | .hit _ _ :: rest => summaryCount rest

/-- The loop of lines 118-174: accumulates `bills` and `filtered_count`.
The `summary` key is skipped; an exception or failed detail skips the item;
an OK detail is classified and, if relevant, normalized and appended. -/
def processItems (state_code state_name : String) : List SRItem → List Bill × Nat
  | [] => ([], 0)
  | .summary _ :: rest => processItems state_code state_name rest
  | .hit _ r :: rest =>
    let acc := processItems state_code state_name rest
    match r with
    | .exn => acc
    | .got httpStatus status info =>
      if httpStatus = 200 then
        if status = "OK" then
          let title := info.title.getD ""
          let description := info.description.getD ""
          if is_relevant_bill title description then
            (normalizeBill state_code state_name info :: acc.1, acc.2)
          else
            (acc.1, acc.2 + 1)
        else acc
      else acc

/-- `fetch_bills_for_state` (lines 84-183) together with the final value of
its `filtered_count` counter (0 on every early return). -/
def fetchWithCount (state_code state_name : String) (resp : SearchResponse) :
    List Bill × Nat :=
  match resp with
  | .exn => ([], 0)
  | .got httpStatus body =>
    if httpStatus ≠ 200 then ([], 0)
    else if body.status ≠ "OK" then ([], 0)
    else if body.searchresult.isEmpty then ([], 0)
    else if summaryCount body.searchresult = 0 then ([], 0)
    else processItems state_code state_name body.searchresult

/-- The value `fetch_bills_for_state` actually returns: only the bill list
(lines 101, 107, 113, 179, 183). -/
def fetch_bills_for_state (state_code state_name : String) (resp : SearchResponse) :
    List Bill :=
  (fetchWithCount state_code state_name resp).1

/-- A detail response that "fails": a raised exception, a non-200 HTTP
status, or a provider status other than `"OK"` (lines 126-131, 172-174). -/
def detailFails : DetailResponse → Prop
  | .exn => True
  | .got httpStatus status _ => httpStatus ≠ 200 ∨ status ≠ "OK"

/-! ## HTML escaping (lines 205-214) -/

/-- The double-quote character. -/
def quoteChar : Char := Char.ofNat 34

/-- The single-quote character. -/
def apostChar : Char := Char.ofNat 39

/-- `escape_html` (lines 205-214): empty (or null, via `escapeHtmlOpt`) input
yields the empty string; otherwise the five replace calls are applied in order. -/
def escape_html (text : String) : String :=
  if text = "" then ""
  else
    pyReplaceChar
      (pyReplaceChar
        (pyReplaceChar
          (pyReplaceChar (pyReplaceChar text '&' "&amp;") '<' "&lt;")
          '>' "&gt;")
        quoteChar "&quot;")
      apostChar "&#39;"

/-- `escape_html` applied to a possibly-null field: `None` is falsy, so the
guard at line 207 returns the empty string, which coincides with escaping it. -/
def escapeHtmlOpt (o : Option String) : String := escape_html (o.getD "")

/-- Per-character entity expansion: what escaping does to each character. -/
def escCharData (c : Char) : List Char :=
  if c == '&' then "&amp;".data
  else if c == '<' then "&lt;".data
  else if c == '>' then "&gt;".data
  else if c == quoteChar then "&quot;".data
  else if c == apostChar then "&#39;".data
  else [c]

/-- Character-level entity expansion of a whole string. -/
def entityExpand (s : String) : String := ⟨s.data.flatMap escCharData⟩

/-- The five entity tails that may legally follow an ampersand in escaped output. -/
def entityTails : List (List Char) :=
  ["amp;".data, "lt;".data, "gt;".data, "quot;".data, "#39;".data]

/-- A character list is escape-clean: it contains no angle bracket or quote,
and every `&` begins one of the five HTML entities produced by escaping. -/
def escOkL : List Char → Bool
  | [] => true
  | c :: cs =>
    if c == '<' || c == '>' || c == quoteChar || c == apostChar then false
    else if c == '&' then
      entityTails.any (fun t => chListStarts t cs) && escOkL cs
    else escOkL cs

/-- String form of `escOkL`. -/
def escOk (s : String) : Bool := escOkL s.data

/-! ## Status CSS class (lines 216-229) and date formatting (lines 231-240) -/

/-- `get_status_class` (lines 216-229). -/
def get_status_class (status : String) : String :=
  let status_lower := lowerString status
  if strContains status_lower "introduced" then "status-introduced"
  else if strContains status_lower "committee" then "status-committee"
  else if strContains status_lower "passed" then "status-passed"
  else if strContains status_lower "enacted" || strContains status_lower "signed" then
    "status-enacted"
  else "status-introduced"

/-- A parsed calendar date. -/
structure PyDate where
  year : Nat
  month : Nat
  day : Nat
deriving DecidableEq, Repr

/-- Days in a month, with Gregorian leap years. -/
def daysInMonth (y m : Nat) : Nat :=
  if m = 2 then
    if y % 4 = 0 && (y % 100 ≠ 0 || y % 400 = 0) then 29 else 28
  else if m = 4 || m = 6 || m = 9 || m = 11 then 30
  else 31

/-- The numeric value of a two-digit component. -/
def twoDigits (a b : Char) : Nat := (a.toNat - 48) * 10 + (b.toNat - 48)

/-- Models the CPython time parser for `HH[:MM[:SS[.fff[fff]]]]`: exactly
hours, hours-colon-minutes, adding seconds, or adding a dot and a 3- or
6-digit fraction; every other shape is rejected.  Only the hour, minute and
second values matter downstream. -/
def parseHMSF : List Char → Option (Nat × Nat × Nat)
  | [h1, h2] =>
    if h1.isDigit && h2.isDigit then some (twoDigits h1 h2, 0, 0) else none
  | [h1, h2, c1, m1, m2] =>
    if h1.isDigit && h2.isDigit && c1 == ':' && m1.isDigit && m2.isDigit then
      some (twoDigits h1 h2, twoDigits m1 m2, 0)
    else none
  | [h1, h2, c1, m1, m2, c2, s1, s2] =>
    if h1.isDigit && h2.isDigit && c1 == ':' && m1.isDigit && m2.isDigit &&
        c2 == ':' && s1.isDigit && s2.isDigit then
      some (twoDigits h1 h2, twoDigits m1 m2, twoDigits s1 s2)
    else none
  | h1 :: h2 :: c1 :: m1 :: m2 :: c2 :: s1 :: s2 :: dot :: frac =>
    if h1.isDigit && h2.isDigit && c1 == ':' && m1.isDigit && m2.isDigit &&
        c2 == ':' && s1.isDigit && s2.isDigit && dot == '.' &&
        (frac.length == 3 || frac.length == 6) && frac.all Char.isDigit then
      some (twoDigits h1 h2, twoDigits m1 m2, twoDigits s1 s2)
    else none
  | _ => none

/-- Models the CPython time-of-day parser: the portion after the first `-`
(preferred) or `+` is a UTC offset that must be 5, 8 or 15 characters of the
`parseHMSF` shapes and strictly less than 24 hours; the portion before it
must satisfy `parseHMSF` with a valid hour, minute and second. -/
def parseIsoTime (t : List Char) : Option (Nat × Nat × Nat) :=
  let pieces : List Char × Option (List Char) :=
    match t.findIdx? (fun c => c == '-') with
    | some i => (t.take i, some (t.drop (i + 1)))
    | none =>
      match t.findIdx? (fun c => c == '+') with
      | some i => (t.take i, some (t.drop (i + 1)))
      | none => (t, none)
  match parseHMSF pieces.1 with
  | none => none
  | some (h, m, s) =>
    if h ≤ 23 && m ≤ 59 && s ≤ 59 then
      match pieces.2 with
      | none => some (h, m, s)
      | some tzstr =>
        if tzstr.length == 5 || tzstr.length == 8 || tzstr.length == 15 then
          match parseHMSF tzstr with
          | none => none
          | some (th, tm, ts) =>
            if th * 3600 + tm * 60 + ts < 86400 then some (h, m, s) else none
        else none
    else none

/-- Models `datetime.fromisoformat` as specified for CPython 3.7-3.10 (ASCII
digits assumed): the first ten characters must be a valid `YYYY-MM-DD` date
(year 1-9999, month 1-12, day within the month); a ten-character string is a
date; an eleven-character string is rejected; anything longer treats the
eleventh character as an arbitrary separator and parses the remainder as a
time of day with optional UTC offset (`parseIsoTime`).  Later CPython
versions accept a superset of these strings; every string this model parses
is parsed, with the same calendar date, by every supported version. -/
def parseIsoDate (s : String) : Option PyDate :=
  let l := s.data
  match l.take 10 with
  | [y1, y2, y3, y4, h1, m1, m2, h2, d1, d2] =>
    if y1.isDigit && y2.isDigit && y3.isDigit && y4.isDigit && h1 == '-' &&
        m1.isDigit && m2.isDigit && h2 == '-' && d1.isDigit && d2.isDigit then
      let y := ((y1.toNat - 48) * 1000 + (y2.toNat - 48) * 100 +
        (y3.toNat - 48) * 10 + (y4.toNat - 48))
      let m := twoDigits m1 m2
      let d := twoDigits d1 d2
      if 1 ≤ y && 1 ≤ m && m ≤ 12 && 1 ≤ d && d ≤ daysInMonth y m then
        if l.length = 10 then some { year := y, month := m, day := d }
        else if l.length = 11 then none
        else
          match parseIsoTime (l.drop 11) with
          | some _ => some { year := y, month := m, day := d }
          | none => none
      else none
    else none
  | _ => none

/-- `%b`: abbreviated month name. -/
def monthAbbrev (m : Nat) : String :=
  match m with
  | 1 => "Jan" | 2 => "Feb" | 3 => "Mar" | 4 => "Apr" | 5 => "May" | 6 => "Jun"
  | 7 => "Jul" | 8 => "Aug" | 9 => "Sep" | 10 => "Oct" | 11 => "Nov" | 12 => "Dec"
  | _ => ""

/-- Two-digit zero padding (`%d`). -/
def pad2 (n : Nat) : String := if n < 10 then "0" ++ toString n else toString n

/-- The strftime format of line 238: abbreviated month, padded day, year. -/
def strftimeBdY (d : PyDate) : String :=
  monthAbbrev d.month ++ " " ++ pad2 d.day ++ ", " ++ toString d.year

/-- `format_date` (lines 231-240): falsy input yields `"Unknown"`; otherwise
the letter Z is rewritten to a UTC offset, a successful parse is reformatted, and a
parse failure returns the original string. -/
def format_date (date_str : Option String) : String :=
  match date_str with
  | none => "Unknown"
  | some s =>
    if s = "" then "Unknown"
    else
      match parseIsoDate (pyReplaceChar s 'Z' "+00:00") with
      | some d => strftimeBdY d
      | none => s

/-! ## Bill card rendering (lines 242-322) -/

/-- `date_to_use` (line 248): the last action date, else the status date. -/
def dateToUse (bill : Bill) : Option String :=
  pyOrOpt bill.last_action_date bill.status_date

/-- The tag string built for one sponsor (lines 258-260). -/
def sponsorTagStr (sponsor : Sponsor) : String :=
  let party :=
    if sponsor.party ≠ "" then " (" ++ escape_html sponsor.party ++ ")" else ""
  "<span class=\"sponsor-tag\">" ++ escapeHtmlOpt sponsor.name ++ party ++ "</span>"

/-- The `sponsors_html` local (lines 255-272). -/
def sponsorsHtmlOf (bill : Bill) : String :=
  let sponsors := bill.sponsors.take 3
  let has_more_sponsors := bill.sponsors.length > 3
  if sponsors.isEmpty then ""
  else
    let sponsor_tags := sponsors.map sponsorTagStr
    let sponsor_tags :=
      if has_more_sponsors then
        sponsor_tags ++
          ["<span class=\"sponsor-tag\">+" ++ toString (bill.sponsors.length - 3) ++
            " more</span>"]
      else sponsor_tags
    "\n            <div class=\"bill-sponsors\">\n                <strong>Sponsors:</strong>\n                <div class=\"sponsor-list\">\n                    " ++
      pyJoin " " sponsor_tags ++
      "\n                </div>\n            </div>\n        "

/-- The `analysis_btn` local (lines 275-286). -/
def analysisBtnOf (bill : Bill) : String :=
  if optTruthy bill.analysis_url then
    "\n            <a href=\"" ++ escapeHtmlOpt bill.analysis_url ++
      "\" target=\"_blank\" rel=\"noopener noreferrer\" class=\"btn btn-analysis\">\n                Read CBDT Analysis\n            </a>\n        "
  else
    "\n            <span class=\"btn btn-disabled\" title=\"Analysis coming soon\">\n                Analysis Pending\n            </span>\n        "

/-- `generate_bill_card_html` (lines 242-322), the f-string at lines 288-322
written as explicit concatenation. -/
def generate_bill_card_html (bill : Bill) : String :=
  let status_class := get_status_class bill.status
  let date_to_use := dateToUse bill
  let last_action_date := format_date date_to_use
  let state_badge_class :=
    if bill.state_code = "US" then "state-badge-federal" else "state-badge-state"
  "\n        <article class=\"bill-card\" data-state=\"" ++ escape_html bill.state_name ++
    "\" data-state-code=\"" ++ escape_html bill.state_code ++
    "\" data-status=\"" ++ escape_html bill.status ++
    "\" data-date=\"" ++ escape_html (pyOrStr date_to_use "") ++
    "\">\n            <div class=\"bill-header\">\n                <div class=\"bill-title\">\n                    <div class=\"bill-meta-top\">\n                        <span class=\"state-badge " ++
    state_badge_class ++ "\">" ++ escape_html bill.state_name ++
    "</span>\n                        <span class=\"bill-number\">" ++
    escapeHtmlOpt bill.bill_number ++
    "</span>\n                    </div>\n                    <h3>" ++
    escape_html bill.title ++
    "</h3>\n                </div>\n                <div class=\"bill-status " ++
    status_class ++ "\">\n                    " ++ escape_html bill.status ++
    "\n                </div>\n            </div>\n            \n            <p class=\"bill-description\">\n                " ++
    escape_html bill.description ++
    "\n            </p>\n            \n            <div class=\"bill-meta\">\n                <div class=\"bill-meta-item\">\n                    <strong>Last Action:</strong> " ++
    escape_html last_action_date ++
    "\n                </div>\n            </div>\n            \n            " ++
    sponsorsHtmlOf bill ++
    "\n            \n            <div class=\"bill-actions\">\n                <a href=\"" ++
    escapeHtmlOpt bill.url ++
    "\" target=\"_blank\" rel=\"noopener noreferrer\" class=\"btn btn-secondary\">\n                    View on LegiScan\n                </a>\n                " ++
    analysisBtnOf bill ++
    "\n            </div>\n        </article>\n    "

/-! ## Fragment decomposition of the card

`billCardFrags` lists, in order, the pieces the card is concatenated from:
`lit` pieces are template markup (or markup-derived values such as the CSS
status class), `escF s` pieces are provider text fields embedded through
`escape_html s`.  `cardFrags_eq` below proves the card is exactly the
rendering of this list. -/

/-- A card piece: literal markup, or a field embedded through `escape_html`. -/
inductive Frag where
  | lit (s : String)
  | escF (s : String)
deriving DecidableEq, Repr

/-- Rendering of one piece. -/
def renderFrag : Frag → String
  | .lit s => s
  | .escF s => escape_html s

/-- Rendering of a piece list. -/
def joinF : List Frag → String
  | [] => ""
  | f :: fs => renderFrag f ++ joinF fs

/-- Piece decomposition of one sponsor tag (lines 258-260). -/
def sponsorTagFrags (sponsor : Sponsor) : List Frag :=
  [Frag.lit "<span class=\"sponsor-tag\">", Frag.escF (sponsor.name.getD "")] ++
    (if sponsor.party ≠ "" then
      [Frag.lit " (", Frag.escF sponsor.party, Frag.lit ")"]
    else []) ++
    [Frag.lit "</span>"]

/-- The space-separated join at the piece level. -/
def interFrags : List (List Frag) → List Frag
  | [] => []
  | [t] => t
  | t :: u :: ts => t ++ Frag.lit " " :: interFrags (u :: ts)

/-- Piece decomposition of `sponsors_html` (lines 255-272). -/
def sponsorsFrags (bill : Bill) : List Frag :=
  if (bill.sponsors.take 3).isEmpty then []
  else
    Frag.lit "\n            <div class=\"bill-sponsors\">\n                <strong>Sponsors:</strong>\n                <div class=\"sponsor-list\">\n                    " ::
      interFrags ((bill.sponsors.take 3).map sponsorTagFrags ++
        (if bill.sponsors.length > 3 then
          [[Frag.lit ("<span class=\"sponsor-tag\">+" ++
            toString (bill.sponsors.length - 3) ++ " more</span>")]]
        else [])) ++
      [Frag.lit "\n                </div>\n            </div>\n        "]

/-- Piece decomposition of `analysis_btn` (lines 275-286). -/
def analysisFrags (bill : Bill) : List Frag :=
  if optTruthy bill.analysis_url then
    [Frag.lit "\n            <a href=\"", Frag.escF (bill.analysis_url.getD ""),
     Frag.lit "\" target=\"_blank\" rel=\"noopener noreferrer\" class=\"btn btn-analysis\">\n                Read CBDT Analysis\n            </a>\n        "]
  else
    [Frag.lit "\n            <span class=\"btn btn-disabled\" title=\"Analysis coming soon\">\n                Analysis Pending\n            </span>\n        "]

/-- Piece decomposition of the whole card (lines 288-322). -/
def billCardFrags (bill : Bill) : List Frag :=
  let status_class := get_status_class bill.status
  let date_to_use := dateToUse bill
  let state_badge_class :=
    if bill.state_code = "US" then "state-badge-federal" else "state-badge-state"
  [Frag.lit "\n        <article class=\"bill-card\" data-state=\"",
   Frag.escF bill.state_name,
   Frag.lit "\" data-state-code=\"", Frag.escF bill.state_code,
   Frag.lit "\" data-status=\"", Frag.escF bill.status,
   Frag.lit "\" data-date=\"", Frag.escF (pyOrStr date_to_use ""),
   Frag.lit ("\">\n            <div class=\"bill-header\">\n                <div class=\"bill-title\">\n                    <div class=\"bill-meta-top\">\n                        <span class=\"state-badge " ++
     state_badge_class ++ "\">"),
   Frag.escF bill.state_name,
   Frag.lit "</span>\n                        <span class=\"bill-number\">",
   Frag.escF (bill.bill_number.getD ""),
   Frag.lit "</span>\n                    </div>\n                    <h3>",
   Frag.escF bill.title,
   Frag.lit ("</h3>\n                </div>\n                <div class=\"bill-status " ++
     status_class ++ "\">\n                    "),
   Frag.escF bill.status,
   Frag.lit "\n                </div>\n            </div>\n            \n            <p class=\"bill-description\">\n                ",
   Frag.escF bill.description,
   Frag.lit "\n            </p>\n            \n            <div class=\"bill-meta\">\n                <div class=\"bill-meta-item\">\n                    <strong>Last Action:</strong> ",
   Frag.escF (format_date date_to_use),
   Frag.lit "\n                </div>\n            </div>\n            \n            "] ++
  sponsorsFrags bill ++
  [Frag.lit "\n            \n            <div class=\"bill-actions\">\n                <a href=\"",
   Frag.escF (bill.url.getD ""),
   Frag.lit "\" target=\"_blank\" rel=\"noopener noreferrer\" class=\"btn btn-secondary\">\n                    View on LegiScan\n                </a>\n                "] ++
  analysisFrags bill ++
  [Frag.lit "\n            </div>\n        </article>\n    "]

/-! ## Sorting and aggregation (lines 324-355) -/

/-- The sort key of line 328:
last action date if truthy, else status date if truthy, else empty. -/
def effKey (bill : Bill) : String :=
  pyOrStr (pyOrOpt bill.last_action_date bill.status_date) ""

/-- Insertion step of a stable descending sort by `effKey`: the new element
goes in front of the first element whose key is `≤` its own, so earlier
elements stay ahead of later ones with an equal key. -/
def sortInsert (bill : Bill) : List Bill → List Bill
  | [] => [bill]
  | c :: cs =>
    if effKey c ≤ effKey bill then bill :: c :: cs else c :: sortInsert bill cs

/-- Models `bills.sort(key=..., reverse=True)` (line 328): Python list sort
is a stable sort, here descending by `effKey`; any stable sort realizes it,
and this insertion sort is stable by construction. -/
def sortBills : List Bill → List Bill
  | [] => []
  | bill :: rest => sortInsert bill (sortBills rest)

/-- The resolution keywords of line 337. -/
def RESOLVED_TERMS : List String := ["enacted", "vetoed", "failed", "dead"]

/-- The active-bill predicate of lines 335-338. -/
def isActiveBill (bill : Bill) : Bool :=
  !(RESOLVED_TERMS.any (fun term => strContains (lowerString bill.status) term))

/-- The computed content of `generate_html` (lines 324-355): the sorted bill
list, the four statistics of lines 330-342, and the pre-rendered cards of
line 348.  The surrounding fixed HTML template (lines 357-607) and the
timestamp reformatting of line 345 are elided: they embed these values in
constant markup. -/
structure Page where
  last_updated : String
  sorted : List Bill
  total_bills : Nat
  total_states : Nat
  active_count : Nat
  analyzed_count : Nat
  cards : List String

/-- `generate_html` (lines 324-355): sorts the collection in place, computes
the statistics from the sorted list, and renders one card per bill. -/
def generate_html (bills : List Bill) (last_updated : String) : Page :=
  let sorted := sortBills bills
  let states_with_bills := (sorted.map Bill.state_name).toFinset
  { last_updated := last_updated
    sorted := sorted
    total_bills := sorted.length
    total_states := states_with_bills.card
    active_count := (sorted.filter isActiveBill).length
    analyzed_count := (sorted.filter (fun b => optTruthy b.analysis_url)).length
    cards := sorted.map generate_bill_card_html }

/-! ## Orchestrator and entry point (lines 185-203, 611-637) -/

/-- The loop of lines 198-201: per-jurisdiction fetches concatenated in
order (`all_bills.extend(bills)`); `net` maps a state code to the search
outcome the provider returned for it. -/
def collectStates (net : String → SearchResponse) :
    List (String × String) → List Bill
  | [] => []
  | (code, name) :: rest =>
    fetch_bills_for_state code name (net code) ++ collectStates net rest

/-- `fetch_all_bills` (lines 185-203): an absent credential returns `[]`
immediately; otherwise every configured jurisdiction is fetched in order.
The jurisdiction list is the `STATES` table in the source; it is a parameter
here so that runs over any configured list are covered. -/
def fetch_all_bills (hasKey : Bool) (states : List (String × String))
    (net : String → SearchResponse) : List Bill :=
  if !hasKey then [] else collectStates net states

/-- The backup snapshot written to `bills.json` (lines 625-630). -/
structure Snapshot where
  last_updated : String
  total_bills : Nat
  bills : List Bill

/-- Observable outcome of `main` (lines 611-637): an early return with a
console error, or both output files written. -/
inductive RunResult where
  | error (msg : String)
  | wrote (snapshot : Snapshot) (page : Page)

/-- The files a run outcome writes. -/
def filesWritten : RunResult → List String
  | .error _ => []
  | .wrote _ _ => ["bills.json", "index.html"]

/-- `main` (lines 611-637): fetch everything; abort with a console error
when the collection is empty (line 617-619), before either file is written;
otherwise write the snapshot and the rendered document.  (Named `mainRun`
because a bare `main` is reserved in Lean.) -/
def mainRun (hasKey : Bool) (states : List (String × String))
    (net : String → SearchResponse) (now : String) : RunResult :=
  let bills := fetch_all_bills hasKey states net
  if bills.isEmpty then .error "ERROR: No bills found"
  else
    .wrote { last_updated := now, total_bills := bills.length, bills := bills }
      (generate_html bills now)

/-! ## Substring characterization -/

theorem chListStarts_iff (n h : List Char) :
    chListStarts n h = true ↔ ∃ t, h = n ++ t := by
  induction n generalizing h with
  | nil => simp [chListStarts]
  | cons c cs ih =>
    cases h with
    | nil => simp [chListStarts]
    | cons d ds =>
      simp only [chListStarts, Bool.and_eq_true, beq_iff_eq, ih, List.cons_append]
      constructor
      · rintro ⟨rfl, t, rfl⟩
        exact ⟨t, rfl⟩
      · rintro ⟨t, ht⟩
        injection ht with h1 h2
        exact ⟨h1.symm, t, h2⟩

theorem chContains_iff (h n : List Char) :
    chContains h n = true ↔ ∃ pre post, h = pre ++ n ++ post := by
  induction h with
  | nil =>
    simp only [chContains, List.isEmpty_iff]
    constructor
    · rintro rfl
      exact ⟨[], [], rfl⟩
    · rintro ⟨pre, post, hp⟩
      rcases List.append_eq_nil.mp (List.append_eq_nil.mp hp.symm).1 with ⟨-, h2⟩
      exact h2
  | cons c cs ih =>
    simp only [chContains, Bool.or_eq_true, chListStarts_iff, ih]
    constructor
    · rintro (⟨t, ht⟩ | ⟨pre, post, hp⟩)
      · exact ⟨[], t, by simp [ht]⟩
      · exact ⟨c :: pre, post, by simp [hp]⟩
    · rintro ⟨pre, post, hp⟩
      cases pre with
      | nil =>
        left
        exact ⟨post, by simpa using hp⟩
      | cons p ps =>
        right
        rw [List.cons_append, List.cons_append] at hp
        injection hp with h1 h2
        exact ⟨ps, post, by simpa using h2⟩

theorem strContains_iff (hay needle : String) :
    strContains hay needle = true ↔
      ∃ pre post, hay.data = pre ++ needle.data ++ post :=
  chContains_iff hay.data needle.data

/-! ## Claim C1 -/

/-- Claim C1 (counterexample): the claim tests the concatenation of title and
description with no separator, but `is_relevant_bill` joins them with a
space.  For title `"cannabi"` and description `"s tax"` the bare
concatenation `"cannabis tax"` contains the anchor `"cannabis"` and the
policy term `"tax"`, so the claim asserts `true`, yet the code sees
`"cannabi s tax"`, finds no anchor, and returns `false`. -/
theorem c1_concat_counterexample :
    specRelevantNoSep "cannabi" "s tax" = true ∧
      is_relevant_bill "cannabi" "s tax" = false := by
  decide

/-- Claim C1 (amended): `is_relevant_bill title description` is true exactly
when the case-folded concatenation of title, a single space, and description
contains one of the three anchor substrings and one of the `POLICY_TERMS`
substrings; in particular it is false when no anchor is present (including
empty inputs) and false when an anchor is present but no policy term is. -/
theorem c1_relevance_characterization (title description : String) :
    is_relevant_bill title description = true ↔
      ((∃ a ∈ ANCHOR_TERMS, ∃ pre post,
          (lowerString (title ++ " " ++ description)).data = pre ++ a.data ++ post) ∧
       (∃ p ∈ POLICY_TERMS, ∃ pre post,
          (lowerString (title ++ " " ++ description)).data = pre ++ p.data ++ post)) := by
  have hif : ∀ (c p : Bool), (if !c then false else p) = (c && p) := by decide
  simp only [is_relevant_bill, hif, Bool.and_eq_true, List.any_eq_true,
    strContains_iff]

/-! ## Claim C4 -/

/-- A provider record with every field missing. -/
def infoNone : BillInfo :=
  { bill_id := none, bill_number := none, title := none, description := none,
    status := none, status_date := none, url := none, last_action := none,
    last_action_date := none, sponsors := none }

/-- Claim C4: looking the stored status code of a normalized bill back up in the
status table reproduces its stored status text; codes 1-9 map to the fixed
table entries, any other code maps to `"Unknown"`, and a missing status field
(defaulted to 0) also yields `"Unknown"`. -/
theorem c4_status_roundtrip (state_code state_name : String) (info : BillInfo) :
    statusMapGet (normalizeBill state_code state_name info).status_code
        = (normalizeBill state_code state_name info).status
  ∧ (statusMapGet 1 = "Introduced" ∧ statusMapGet 2 = "In Committee" ∧
     statusMapGet 3 = "Passed Chamber" ∧ statusMapGet 4 = "Passed Both Chambers" ∧
     statusMapGet 5 = "Sent to Executive" ∧ statusMapGet 6 = "Enacted/Signed" ∧
     statusMapGet 7 = "Vetoed" ∧ statusMapGet 8 = "Failed/Dead" ∧
     statusMapGet 9 = "Override Attempt")
  ∧ (∀ c : Int, (c < 1 ∨ 9 < c) → statusMapGet c = "Unknown")
  ∧ (info.status = none → (normalizeBill state_code state_name info).status = "Unknown") := by
  refine ⟨rfl, by decide, ?_, ?_⟩
  · intro c hc
    have hne : ∀ k : Int, 1 ≤ k → k ≤ 9 → (c == k) = false := by
      intro k hk1 hk2
      rw [beq_eq_false_iff_ne]
      rcases hc with h | h <;> omega
    simp [statusMapGet, STATUS_MAP, List.lookup,
      hne 1 (by norm_num) (by norm_num), hne 2 (by norm_num) (by norm_num),
      hne 3 (by norm_num) (by norm_num), hne 4 (by norm_num) (by norm_num),
      hne 5 (by norm_num) (by norm_num), hne 6 (by norm_num) (by norm_num),
      hne 7 (by norm_num) (by norm_num), hne 8 (by norm_num) (by norm_num),
      hne 9 (by norm_num) (by norm_num)]
  · intro h
    show statusMapGet (info.status.getD 0) = "Unknown"
    rw [h]
    decide

/-- Witness for C4 at a concrete out-of-table code and a concrete record
with a missing status field. -/
theorem c4_status_roundtrip_witness :
    statusMapGet 42 = "Unknown" ∧
      (normalizeBill "CO" "Colorado" infoNone).status = "Unknown" :=
  ⟨(c4_status_roundtrip "CO" "Colorado" infoNone).2.2.1 42 (by decide),
   (c4_status_roundtrip "CO" "Colorado" infoNone).2.2.2 rfl⟩

/-! ## Claim C5 -/

/-- Claim C5: every normalized bill has a description of at most 500
characters (no ellipsis marker is added) and at most 5 sponsors, namely the
first 5 provider sponsor entries in provider order. -/
theorem c5_truncation (state_code state_name : String) (info : BillInfo) :
    (normalizeBill state_code state_name info).description.length ≤ 500
  ∧ (normalizeBill state_code state_name info).sponsors.length ≤ 5
  ∧ (normalizeBill state_code state_name info).sponsors
      = ((info.sponsors.getD []).take 5).map
          (fun s => { name := s.name, party := s.party.getD "", role := s.role.getD "" }) := by
  refine ⟨?_, ?_, rfl⟩
  · show (pyTake (info.description.getD "") 500).length ≤ 500
    simp [pyTake, String.length_mk]
  · show (((info.sponsors.getD []).take 5).map _).length ≤ 5
    simp

/-! ## Claim C10 -/

theorem sortInsert_perm (b : Bill) (l : List Bill) :
    (sortInsert b l).Perm (b :: l) := by
  induction l with
  | nil => exact List.Perm.refl _
  | cons c cs ih =>
    unfold sortInsert
    split
    · exact List.Perm.refl _
    · exact (ih.cons c).trans (List.Perm.swap b c cs)

theorem sortBills_perm (l : List Bill) : (sortBills l).Perm l := by
  induction l with
  | nil => exact List.Perm.refl _
  | cons b bs ih =>
    exact (sortInsert_perm b (sortBills bs)).trans (ih.cons b)

theorem sortInsert_sorted (b : Bill) (l : List Bill)
    (h : l.Pairwise (fun x y => effKey y ≤ effKey x)) :
    (sortInsert b l).Pairwise (fun x y => effKey y ≤ effKey x) := by
  induction l with
  | nil => simp [sortInsert]
  | cons c cs ih =>
    rcases List.pairwise_cons.mp h with ⟨hc, hcs⟩
    unfold sortInsert
    split
    · rename_i hle
      refine List.pairwise_cons.mpr ⟨?_, h⟩
      intro y hy
      rcases List.mem_cons.mp hy with rfl | hy2
      · exact hle
      · exact (hc y hy2).trans hle
    · rename_i hgt
      refine List.pairwise_cons.mpr ⟨?_, ih hcs⟩
      intro y hy
      have hy2 : y ∈ b :: cs := (sortInsert_perm b cs).subset hy
      rcases List.mem_cons.mp hy2 with rfl | hy3
      · exact (not_le.mp hgt).le
      · exact hc y hy3

theorem sortBills_sorted (l : List Bill) :
    (sortBills l).Pairwise (fun x y => effKey y ≤ effKey x) := by
  induction l with
  | nil => simp [sortBills]
  | cons b bs ih => exact sortInsert_sorted b (sortBills bs) ih

theorem sortInsert_filter (b : Bill) (l : List Bill)
    (hs : l.Pairwise (fun x y => effKey y ≤ effKey x)) (k : String) :
    (sortInsert b l).filter (fun x => effKey x == k)
      = if effKey b == k then b :: l.filter (fun x => effKey x == k)
        else l.filter (fun x => effKey x == k) := by
  induction l with
  | nil =>
    cases hb : (effKey b == k) <;> simp [sortInsert, List.filter, hb]
  | cons c cs ih =>
    rcases List.pairwise_cons.mp hs with ⟨-, hcs⟩
    unfold sortInsert
    split
    · rw [List.filter_cons]
    · rename_i hgt
      rw [List.filter_cons, ih hcs]
      by_cases hbk : (effKey b == k) = true
      · have hbk2 : effKey b = k := by simpa using hbk
        have hck : (effKey c == k) = false := by
          rw [beq_eq_false_iff_ne]
          intro hck
          exact hgt (by rw [hck, hbk2])
        simp [hck, hbk, List.filter_cons]
      · have hbkf : (effKey b == k) = false := by
          simpa using hbk
        simp [hbkf, List.filter_cons]

theorem sortBills_filter (l : List Bill) (k : String) :
    (sortBills l).filter (fun x => effKey x == k)
      = l.filter (fun x => effKey x == k) := by
  induction l with
  | nil => rfl
  | cons b bs ih =>
    show (sortInsert b (sortBills bs)).filter _ = _
    rw [sortInsert_filter b (sortBills bs) (sortBills_sorted bs) k, List.filter_cons]
    cases hb : (effKey b == k) <;> simp [hb, ih]

/-! ## Claim C2 -/

/-- Claim C2: after `generate_html` sorts the collection, every adjacent
pair is descending in the effective date key (`last_action_date`, else
`status_date`, else empty, lexicographically), and bills with equal keys keep
their original relative order (the sort is stable). -/
theorem c2_sort_descending_stable (bills : List Bill) (last_updated : String) :
    List.Chain' (fun a b => effKey b ≤ effKey a)
        ((generate_html bills last_updated).sorted)
  ∧ ∀ k : String,
      ((generate_html bills last_updated).sorted.filter (fun x => effKey x == k))
        = bills.filter (fun x => effKey x == k) := by
  constructor
  · exact (sortBills_sorted bills).chain'
  · intro k
    exact sortBills_filter bills k

/-! ## Claim C3 -/

/-- Claim C3: the four statistics of the rendered document — total bill
count, distinct jurisdiction count, active count (status text lowercased
contains none of `enacted`, `vetoed`, `failed`, `dead`), and analyzed count
(non-empty `analysis_url`) — counted over the input collection. -/
theorem c3_statistics (bills : List Bill) (last_updated : String) :
    (generate_html bills last_updated).total_bills = bills.length
  ∧ (generate_html bills last_updated).total_states
      = ((bills.map Bill.state_name).dedup).length
  ∧ (generate_html bills last_updated).active_count
      = bills.countP (fun b =>
          !(strContains (lowerString b.status) "enacted" ||
            strContains (lowerString b.status) "vetoed" ||
            strContains (lowerString b.status) "failed" ||
            strContains (lowerString b.status) "dead"))
  ∧ (generate_html bills last_updated).analyzed_count
      = bills.countP (fun b => optTruthy b.analysis_url) := by
  have hperm : (sortBills bills).Perm bills := sortBills_perm bills
  refine ⟨?_, ?_, ?_, ?_⟩
  · exact hperm.length_eq
  · show ((sortBills bills).map Bill.state_name).toFinset.card = _
    rw [List.card_toFinset]
    exact ((hperm.map Bill.state_name).dedup).length_eq
  · show ((sortBills bills).filter isActiveBill).length = _
    rw [← List.countP_eq_length_filter, hperm.countP_eq]
    apply List.countP_congr
    intro b _
    simp [isActiveBill, RESOLVED_TERMS, Bool.or_assoc]
  · show ((sortBills bills).filter (fun b => optTruthy b.analysis_url)).length = _
    rw [← List.countP_eq_length_filter, hperm.countP_eq]

/-! ## Fetch-pipeline lemmas -/

theorem summaryCount_mid (pre post : List SRItem) (bid : Option Int)
    (r : DetailResponse) :
    summaryCount (pre ++ .hit bid r :: post) = summaryCount (pre ++ post) := by
  induction pre with
  | nil => rfl
  | cons i is ih => cases i <;> simp [summaryCount, ih]

theorem processItems_mid (state_code state_name : String)
    (pre post : List SRItem) (bid : Option Int) (r : DetailResponse)
    (hr : detailFails r) :
    processItems state_code state_name (pre ++ .hit bid r :: post)
      = processItems state_code state_name (pre ++ post) := by
  induction pre with
  | nil =>
    show processItems state_code state_name (.hit bid r :: post) = _
    cases r with
    | exn => rfl
    | got hs st info =>
      rcases hr with h | h
      · simp [processItems, if_neg h]
      · by_cases h200 : hs = 200
        · simp [processItems, h200, if_neg h]
        · simp [processItems, h200]
  | cons i is ih =>
    cases i with
    | summary c =>
      show processItems state_code state_name (.summary c :: (is ++ _)) = _
      simp only [processItems]
      exact ih
    | hit bid2 r2 =>
      show processItems state_code state_name (.hit bid2 r2 :: (is ++ _)) = _
      simp only [processItems]
      rw [ih]
      rfl

theorem processItems_mem (state_code state_name : String) (items : List SRItem)
    (b : Bill) (hb : b ∈ (processItems state_code state_name items).1) :
    ∃ info : BillInfo,
      is_relevant_bill (info.title.getD "") (info.description.getD "") = true
      ∧ b = normalizeBill state_code state_name info := by
  induction items with
  | nil => simp [processItems] at hb
  | cons i is ih =>
    cases i with
    | summary c => exact ih (by simpa [processItems] using hb)
    | hit bid r =>
      cases r with
      | exn => exact ih (by simpa [processItems] using hb)
      | got hs st info =>
        by_cases h200 : hs = 200
        · by_cases hok : st = "OK"
          · cases hrel : is_relevant_bill (info.title.getD "") (info.description.getD "")
            · exact ih (by simpa [processItems, h200, hok, hrel] using hb)
            · have hb2 : b = normalizeBill state_code state_name info ∨
                  b ∈ (processItems state_code state_name is).1 := by
                simpa [processItems, h200, hok, hrel] using hb
              rcases hb2 with rfl | hb2
              · exact ⟨info, hrel, rfl⟩
              · exact ih hb2
          · exact ih (by simpa [processItems, h200, hok] using hb)
        · exact ih (by simpa [processItems, h200] using hb)

/-! ## Claim C9 -/

/-- Claim C9: a failing detail response (exception, non-200 HTTP status, or
non-OK provider status) for one search hit only skips that hit — the
jurisdiction result is exactly the result of processing the remaining
hits, so every remaining relevant hit still produces its bill and the run
does not abort. -/
theorem c9_detail_failure_isolated (state_code state_name : String)
    (httpStatus : Nat) (apiStatus : String) (pre post : List SRItem)
    (bid : Option Int) (r : DetailResponse) (hr : detailFails r) :
    fetch_bills_for_state state_code state_name
        (.got httpStatus { status := apiStatus, searchresult := pre ++ .hit bid r :: post })
      = fetch_bills_for_state state_code state_name
        (.got httpStatus { status := apiStatus, searchresult := pre ++ post }) := by
  unfold fetch_bills_for_state fetchWithCount
  by_cases hh : httpStatus ≠ 200
  · simp [hh]
  · simp only [hh, if_false]
    by_cases hst : apiStatus ≠ "OK"
    · simp [hst]
    · simp only [hst, if_false]
      rw [summaryCount_mid pre post bid r]
      by_cases hpp : (pre ++ post).isEmpty = true
      · have hpre : pre = [] := by
          cases pre with
          | nil => rfl
          | cons x xs => simp at hpp
        have hpost : post = [] := by
          subst hpre
          simpa using hpp
        subst hpre
        subst hpost
        simp [summaryCount_mid, summaryCount]
      · have hleft : (pre ++ SRItem.hit bid r :: post).isEmpty = false := by
          cases pre <;> simp
        simp only [hleft, Bool.false_eq_true, if_false, hpp,
          processItems_mid state_code state_name pre post bid r hr]

/-- A concrete relevant provider record. -/
def infoCannabisTax : BillInfo :=
  { bill_id := some 101, bill_number := some "HB 1",
    title := some "Cannabis Tax Reform Act",
    description := some "Concerning cannabis licensing and tax.",
    status := some 2, status_date := some "2025-01-02",
    url := some "https://legiscan.example/b/101",
    last_action := some "Introduced", last_action_date := some "2025-01-03",
    sponsors := some [] }

/-- A search hit whose detail succeeded with `infoCannabisTax`. -/
def hitOk : SRItem := .hit (some 101) (.got 200 "OK" infoCannabisTax)

/-- Witness for C9: dropping a hit whose detail raised leaves the result of
the surviving hit unchanged. -/
theorem c9_detail_failure_isolated_witness :
    fetch_bills_for_state "CO" "Colorado"
        (.got 200
          { status := "OK",
            searchresult := [SRItem.summary 2, SRItem.hit (some 7) DetailResponse.exn, hitOk] })
      = fetch_bills_for_state "CO" "Colorado"
        (.got 200 { status := "OK", searchresult := [SRItem.summary 2, hitOk] }) :=
  c9_detail_failure_isolated "CO" "Colorado" 200 "OK" [SRItem.summary 2] [hitOk]
    (some 7) DetailResponse.exn trivial

/-! ## Claim C8 -/

/-- Claim C8: a missing credential or an empty jurisdiction list yields an
empty collection, and whenever the collected list is empty the run aborts
with a console error before writing anything — neither `bills.json` nor
`index.html` is produced. -/
theorem c8_empty_collection_aborts (hasKey : Bool)
    (states : List (String × String)) (net : String → SearchResponse)
    (now : String) :
    (hasKey = false → fetch_all_bills hasKey states net = [])
  ∧ (states = [] → fetch_all_bills hasKey states net = [])
  ∧ (fetch_all_bills hasKey states net = [] →
      mainRun hasKey states net now = .error "ERROR: No bills found"
      ∧ filesWritten (mainRun hasKey states net now) = []) := by
  refine ⟨?_, ?_, ?_⟩
  · intro h
    simp [fetch_all_bills, h]
  · intro h
    subst h
    cases hasKey <;> simp [fetch_all_bills, collectStates]
  · intro h
    constructor
    · simp [mainRun, h]
    · simp [mainRun, h, filesWritten]

/-- Witness for C8: with the credential missing the run aborts and writes
no files. -/
theorem c8_empty_collection_aborts_witness :
    mainRun false [("CO", "Colorado")] (fun _ => SearchResponse.exn) "2025-01-01"
        = .error "ERROR: No bills found"
  ∧ filesWritten
      (mainRun false [("CO", "Colorado")] (fun _ => SearchResponse.exn) "2025-01-01")
      = [] :=
  (c8_empty_collection_aborts false [("CO", "Colorado")]
      (fun _ => SearchResponse.exn) "2025-01-01").2.2
    ((c8_empty_collection_aborts false [("CO", "Colorado")]
      (fun _ => SearchResponse.exn) "2025-01-01").1 rfl)

/-! ## Claim C7 -/

/-- A search outcome with one hit whose detail is fetched but rejected by the
classifier (`filtered_count` ends at 1, result empty). -/
def respIrrelevant : SearchResponse :=
  .got 200
    { status := "OK",
      searchresult := [.summary 1,
        .hit (some 5) (.got 200 "OK"
          { bill_id := some 5, bill_number := none, title := some "hello",
            description := some "", status := none, status_date := none,
            url := none, last_action := none, last_action_date := none,
            sponsors := none })] }

/-- A search outcome whose summary reports zero hits (`filtered_count` stays
0, result empty). -/
def respNoHits : SearchResponse := .got 200 { status := "OK", searchresult := [.summary 0] }

/-- Claim C7 (counterexample): `fetch_bills_for_state` returns only the bill
list, not a `(bills, fetched_count, filtered_count)` triple.  Two runs with
identical return values have different final `filtered_count` values, so no
component of the result carries the counts. -/
theorem c7_result_not_a_triple :
    fetch_bills_for_state "CO" "Colorado" respIrrelevant
        = fetch_bills_for_state "CO" "Colorado" respNoHits
  ∧ (fetchWithCount "CO" "Colorado" respIrrelevant).2
      ≠ (fetchWithCount "CO" "Colorado" respNoHits).2 := by
  decide

/-- Claim C7 (amended): the per-jurisdiction fetch returns a list of bills as
its result — every element is a normalized record whose provider title and
description passed the relevance classifier; the fetched and filtered counts
are not part of the return value (they are only logged). -/
theorem c7_returns_bill_list (state_code state_name : String)
    (resp : SearchResponse) (b : Bill)
    (hb : b ∈ fetch_bills_for_state state_code state_name resp) :
    ∃ info : BillInfo,
      is_relevant_bill (info.title.getD "") (info.description.getD "") = true
      ∧ b = normalizeBill state_code state_name info := by
  unfold fetch_bills_for_state fetchWithCount at hb
  cases resp with
  | exn => simp at hb
  | got hs body =>
    by_cases hh : hs ≠ 200
    · simp [hh] at hb
    · simp only [hh, if_false] at hb
      by_cases hst : body.status ≠ "OK"
      · simp [hst] at hb
      · simp only [hst, if_false] at hb
        by_cases he : body.searchresult.isEmpty = true
        · simp [he] at hb
        · simp only [he, Bool.false_eq_true, if_false] at hb
          by_cases hc : summaryCount body.searchresult = 0
          · simp [hc] at hb
          · simp only [hc, if_false] at hb
            exact processItems_mem state_code state_name body.searchresult b hb

/-- Witness for C7 (amended) at a concrete search outcome with one relevant
hit. -/
theorem c7_returns_bill_list_witness :
    ∃ info : BillInfo,
      is_relevant_bill (info.title.getD "") (info.description.getD "") = true
      ∧ normalizeBill "CO" "Colorado" infoCannabisTax
          = normalizeBill "CO" "Colorado" info :=
  c7_returns_bill_list "CO" "Colorado"
    (.got 200 { status := "OK", searchresult := [SRItem.summary 1, hitOk] })
    (normalizeBill "CO" "Colorado" infoCannabisTax) (by decide)

/-! ## Escaping lemmas -/

/-- One replacement stage at the character-list level. -/
def escStage (old : Char) (new : String) (l : List Char) : List Char :=
  l.flatMap (fun c => if c == old then new.data else [c])

theorem pyReplaceChar_data (s : String) (old : Char) (new : String) :
    (pyReplaceChar s old new).data = escStage old new s.data := rfl

theorem escStage_append (old : Char) (new : String) (a b : List Char) :
    escStage old new (a ++ b) = escStage old new a ++ escStage old new b := by
  simp [escStage]

/-- The five replacement stages of `escape_html`, composed. -/
def allStages (l : List Char) : List Char :=
  escStage apostChar "&#39;" (escStage quoteChar "&quot;"
    (escStage '>' "&gt;" (escStage '<' "&lt;" (escStage '&' "&amp;" l))))

theorem allStages_append (a b : List Char) :
    allStages (a ++ b) = allStages a ++ allStages b := by
  simp [allStages, escStage_append]

theorem allStages_single (c : Char) : allStages [c] = escCharData c := by
  by_cases h1 : c = '&'
  · subst h1; decide
  · by_cases h2 : c = '<'
    · subst h2; decide
    · by_cases h3 : c = '>'
      · subst h3; decide
      · by_cases h4 : c = quoteChar
        · subst h4; decide
        · by_cases h5 : c = apostChar
          · subst h5; decide
          · simp [allStages, escStage, escCharData, List.flatMap, beq_iff_eq,
              h1, h2, h3, h4, h5]

theorem allStages_eq (l : List Char) : allStages l = l.flatMap escCharData := by
  induction l with
  | nil => rfl
  | cons c cs ih =>
    have hsplit : (c :: cs) = [c] ++ cs := rfl
    rw [hsplit, allStages_append, allStages_single, ih]
    simp [List.flatMap_append]

/-- `escape_html` is exactly the per-character entity expansion: each special
character is replaced by its entity, every other character is untouched. -/
theorem escape_html_eq_entityExpand (s : String) :
    escape_html s = entityExpand s := by
  unfold escape_html
  by_cases hs : s = ""
  · subst hs; rfl
  · rw [if_neg hs]
    apply String.ext
    show allStages s.data = (entityExpand s).data
    rw [allStages_eq]
    rfl

theorem chListStarts_self_append (p t : List Char) :
    chListStarts p (p ++ t) = true := by
  induction p with
  | nil => rfl
  | cons c cs ih => simp [chListStarts, ih]

theorem escOkL_cons_plain (c : Char) (t : List Char)
    (h1 : (c == '<' || c == '>' || c == quoteChar || c == apostChar) = false)
    (h2 : (c == '&') = false) :
    escOkL (c :: t) = escOkL t := by
  simp only [escOkL]
  rw [if_neg (by simp [h1]), if_neg (by simp [h2])]

theorem escOkL_amp (t : List Char) :
    escOkL ('&' :: t)
      = (entityTails.any (fun tl => chListStarts tl t) && escOkL t) := by
  simp only [escOkL]
  rw [if_neg (by decide), if_pos (by decide)]

theorem escOkL_plain_append (p t : List Char)
    (hp : ∀ c ∈ p,
        ((c == '<' || c == '>' || c == quoteChar || c == apostChar) = false) ∧
          ((c == '&') = false)) :
    escOkL (p ++ t) = escOkL t := by
  induction p with
  | nil => rfl
  | cons c cs ih =>
    rcases hp c (List.mem_cons_self c cs) with ⟨h1, h2⟩
    rw [List.cons_append, escOkL_cons_plain c _ h1 h2,
      ih (fun d hd => hp d (List.mem_cons_of_mem c hd))]

theorem escOkL_flatMap (l : List Char) :
    escOkL (l.flatMap escCharData) = true := by
  induction l with
  | nil => rfl
  | cons c cs ih =>
    rw [List.flatMap_cons]
    by_cases h1 : c = '&'
    · subst h1
      show escOkL ('&' :: ("amp;".data ++ cs.flatMap escCharData)) = true
      rw [escOkL_amp, escOkL_plain_append _ _ (by decide), ih, Bool.and_true]
      exact List.any_eq_true.mpr
        ⟨"amp;".data, by decide, chListStarts_self_append _ _⟩
    · by_cases h2 : c = '<'
      · subst h2
        show escOkL ('&' :: ("lt;".data ++ cs.flatMap escCharData)) = true
        rw [escOkL_amp, escOkL_plain_append _ _ (by decide), ih, Bool.and_true]
        exact List.any_eq_true.mpr
          ⟨"lt;".data, by decide, chListStarts_self_append _ _⟩
      · by_cases h3 : c = '>'
        · subst h3
          show escOkL ('&' :: ("gt;".data ++ cs.flatMap escCharData)) = true
          rw [escOkL_amp, escOkL_plain_append _ _ (by decide), ih, Bool.and_true]
          exact List.any_eq_true.mpr
            ⟨"gt;".data, by decide, chListStarts_self_append _ _⟩
        · by_cases h4 : c = quoteChar
          · subst h4
            show escOkL ('&' :: ("quot;".data ++ cs.flatMap escCharData)) = true
            rw [escOkL_amp, escOkL_plain_append _ _ (by decide), ih, Bool.and_true]
            exact List.any_eq_true.mpr
              ⟨"quot;".data, by decide, chListStarts_self_append _ _⟩
          · by_cases h5 : c = apostChar
            · subst h5
              show escOkL ('&' :: ("#39;".data ++ cs.flatMap escCharData)) = true
              rw [escOkL_amp, escOkL_plain_append _ _ (by decide), ih, Bool.and_true]
              exact List.any_eq_true.mpr
                ⟨"#39;".data, by decide, chListStarts_self_append _ _⟩
            · have hc : escCharData c = [c] := by
                simp [escCharData, beq_iff_eq, h1, h2, h3, h4, h5]
              rw [hc, List.singleton_append,
                escOkL_cons_plain c _ (by simp [beq_iff_eq, h2, h3, h4, h5])
                  (by simp [beq_iff_eq, h1]),
                ih]

/-- Escaped output is always escape-clean. -/
theorem escOk_escape_html (s : String) : escOk (escape_html s) = true := by
  rw [escape_html_eq_entityExpand]
  exact escOkL_flatMap s.data

/-! ## Card = rendered fragments -/

theorem strAppend_assoc (a b c : String) : a ++ b ++ c = a ++ (b ++ c) := by
  apply String.ext
  simp [List.append_assoc]

theorem strAppend_empty (a : String) : a ++ "" = a := by
  apply String.ext
  simp

theorem strEmpty_append (a : String) : "" ++ a = a := by
  apply String.ext
  simp

theorem joinF_append (a b : List Frag) :
    joinF (a ++ b) = joinF a ++ joinF b := by
  induction a with
  | nil => simp [joinF, strEmpty_append]
  | cons f fs ih => simp [joinF, ih, strAppend_assoc]

theorem joinF_interFrags :
    ∀ L : List (List Frag), joinF (interFrags L) = pyJoin " " (L.map joinF)
  | [] => rfl
  | [t] => by
    show joinF t = pyJoin " " [joinF t]
    rfl
  | t :: u :: ts => by
    show joinF (t ++ Frag.lit " " :: interFrags (u :: ts)) = _
    rw [joinF_append]
    show joinF t ++ (" " ++ joinF (interFrags (u :: ts))) = _
    rw [joinF_interFrags (u :: ts)]
    show joinF t ++ (" " ++ pyJoin " " (joinF u :: ts.map joinF))
        = joinF t ++ " " ++ pyJoin " " (joinF u :: ts.map joinF)
    rw [strAppend_assoc]

theorem joinF_sponsorTagFrags (sp : Sponsor) :
    joinF (sponsorTagFrags sp) = sponsorTagStr sp := by
  by_cases hp : sp.party = ""
  · simp [sponsorTagFrags, sponsorTagStr, joinF, renderFrag, hp, escapeHtmlOpt,
      strAppend_assoc, strAppend_empty, strEmpty_append]
  · simp [sponsorTagFrags, sponsorTagStr, joinF, renderFrag, hp, escapeHtmlOpt,
      strAppend_assoc, strAppend_empty, strEmpty_append]

theorem sponsorsHtml_eq (bill : Bill) :
    sponsorsHtmlOf bill = joinF (sponsorsFrags bill) := by
  unfold sponsorsHtmlOf sponsorsFrags
  cases hsp : bill.sponsors with
  | nil => simp [joinF]
  | cons s ss =>
    have he : (((s :: ss).take 3).isEmpty) = false := by simp
    simp only [he, Bool.false_eq_true, if_false]
    have hdef : sponsorTagStr = fun sp =>
        "<span class=\"sponsor-tag\">" ++ escapeHtmlOpt sp.name ++
          (if sp.party ≠ "" then " (" ++ escape_html sp.party ++ ")" else "") ++
          "</span>" := rfl
    by_cases hm : 3 < ss.length + 1
    · simp [hm, hdef, joinF_interFrags, sponsorTagFrags, joinF, renderFrag,
        joinF_append, escapeHtmlOpt, List.map_map, Function.comp_def,
        apply_ite joinF, strAppend_assoc, strAppend_empty, strEmpty_append]
    · simp [hm, hdef, joinF_interFrags, sponsorTagFrags, joinF, renderFrag,
        joinF_append, escapeHtmlOpt, List.map_map, Function.comp_def,
        apply_ite joinF, strAppend_assoc, strAppend_empty, strEmpty_append]

theorem analysisBtn_eq (bill : Bill) :
    analysisBtnOf bill = joinF (analysisFrags bill) := by
  unfold analysisBtnOf analysisFrags
  by_cases h : optTruthy bill.analysis_url = true
  · simp [h, joinF, renderFrag, escapeHtmlOpt, strAppend_assoc, strAppend_empty]
  · simp [h, joinF, renderFrag, strAppend_empty]

theorem cardFrags_eq (bill : Bill) :
    generate_bill_card_html bill = joinF (billCardFrags bill) := by
  unfold generate_bill_card_html billCardFrags
  rw [sponsorsHtml_eq, analysisBtn_eq]
  simp [joinF_append, joinF, renderFrag, escapeHtmlOpt, strAppend_assoc,
    strAppend_empty, strEmpty_append]

/-! ## Claim C6 -/

/-- Claim C6: the bill card is exactly the rendering of its piece list, in
which every provider text field enters only through `escape_html` (`escF`
pieces); each such embedded field is replaced character-by-character by its
HTML entities, so its rendering contains no literal `<`, `>`, `"` or single
quote at all, and every `&` it contributes starts an entity. -/
theorem c6_card_fields_escaped (bill : Bill) (s : String)
    (_hs : Frag.escF s ∈ billCardFrags bill) :
    generate_bill_card_html bill = joinF (billCardFrags bill)
  ∧ escape_html s = entityExpand s
  ∧ escOk (escape_html s) = true :=
  ⟨cardFrags_eq bill, escape_html_eq_entityExpand s, escOk_escape_html s⟩

/-- A concrete bill whose text fields contain every special character. -/
def billSpecials : Bill :=
  { id := some 1, state_code := "CO", state_name := "Colorado",
    bill_number := some "HB <1>", title := "Cannabis \"tax\" & <licensing>",
    description := "A & B", status := "Introduced", status_code := 1,
    status_date := some "2025-01-02", url := some "https://x.example/?a=1&b=2",
    last_action := none, last_action_date := none, sponsors := [],
    analysis_url := none }

/-- Witness for C6 at `billSpecials` and its title field. -/
theorem c6_card_fields_escaped_witness :
    generate_bill_card_html billSpecials = joinF (billCardFrags billSpecials)
  ∧ escape_html "Cannabis \"tax\" & <licensing>"
      = entityExpand "Cannabis \"tax\" & <licensing>"
  ∧ escOk (escape_html "Cannabis \"tax\" & <licensing>") = true :=
  c6_card_fields_escaped billSpecials "Cannabis \"tax\" & <licensing>" (by decide)
